import Mathlib

/-!
# Verification of the document approval workflow backend (server2.js)

Shallow embedding of the workflow engine of the repository: the `documents`
table rows, the upload / approve / review transitions, the OTP gate and the
query views, together with theorems settling the specification claims.

The database is modelled as a `List Document`; each HTTP handler becomes a
pure function from the pre-state (plus the request fields and an explicit
flag telling whether the outbound mail call fails) to the post-state, the
HTTP outcome and the notifications it builds. Timestamps are `Nat`;
nullable SQL columns are `Option` fields; `undefined`-able JS values are
`Option` as well.
-/

/-- A row of the `documents` table (schema from the INSERT in POST /upload
and the UPDATEs in PUT /api/approve/:id and PUT /api/review). -/
structure Document where
  id : Nat
  document_name : String
  document_link : Option String
  uploaded_by : String
  upload_time : Nat
  approval_status : String
  approved_by : Option String
  approval_time : Option Nat
  review_status : String
  reviewer : Option String
  review_time : Option Nat
deriving Repr, DecidableEq

/-- Outcome of the PUT /api/review handler: `res.json` on the happy path,
`res.status(500)` when the `catch` block runs. -/
inductive ReviewOutcome
  | success
  | serverError
deriving Repr, DecidableEq

/-- A mail built for `transporter.sendMail`: recipient list (entries may be
`none`, mirroring a JS `undefined`/`null` address), subject and html body. -/
structure Notification where
  toEmails : List (Option String)
  subject : String
  html : String
deriving Repr, DecidableEq

/-- `getUserEmailByUsername`: SELECT email FROM users WHERE username = ?,
returning the first match or null. The `users` table is modelled as an
association list username ↦ email. -/
def getUserEmailByUsername (users : List (String × String)) (username : String) :
    Option String :=
  (users.find? (fun u => u.1 == username)).map (fun u => u.2)

/-- Per-row effect of the UPDATE in PUT /api/review:
`SET review_status = ?, reviewer = ?, review_time = ?
 WHERE uploaded_by = ? AND approval_status = 'Approved'`. -/
def reviewUpdateDoc (uploaded_by review_status reviewer : String)
    (review_time : Nat) (d : Document) : Document :=
  if d.uploaded_by = uploaded_by ∧ d.approval_status = "Approved" then
    { d with review_status := review_status, reviewer := some reviewer,
             review_time := some review_time }
  else d

/-- The mail that PUT /api/review builds: addressed to the uploader and the
approver, subject chosen by the review decision. -/
def reviewNotification (users : List (String × String))
    (approverEmail : Option String)
    (uploaded_by review_status reviewer : String) : Notification :=
  { toEmails := [getUserEmailByUsername users uploaded_by, approverEmail],
    subject :=
      if review_status = "Approved" then "✅ Document Reviewed & Approved"
      else "❌ Document Reviewed & Rejected",
    html := "\n      <h3>Document reviewed by: " ++ reviewer ++ "</h3>\n      <p><strong>Status:</strong> " ++ review_status ++ "</p>\n      <p><strong>Uploaded By:</strong> " ++ uploaded_by ++ "</p>\n    " }

/-- Result of the PUT /api/review handler. -/
structure ReviewResult where
  docs : List Document
  outcome : ReviewOutcome
  notification : Notification
  errorLogged : Bool
deriving Repr, DecidableEq

/-- PUT /api/review. The UPDATE runs first (autocommit, no transaction);
`transporter.sendMail` is then awaited inside the same `try`, so a mail
failure falls into the `catch` block: the error is logged and the response
is a 500, but the already-committed UPDATE is not rolled back. -/
def reviewHandler (docs : List Document) (users : List (String × String))
    (approverEmail : Option String)
    (uploaded_by review_status reviewer : String) (review_time : Nat)
    (mailFails : Bool) : ReviewResult :=
  { docs := docs.map (reviewUpdateDoc uploaded_by review_status reviewer review_time),
    outcome := if mailFails then .serverError else .success,
    notification := reviewNotification users approverEmail uploaded_by review_status reviewer,
    errorLogged := mailFails }

/-- A map whose function fixes every element of the list is the identity. -/
theorem map_eq_self_of_fixed {α : Type} (l : List α) (f : α → α)
    (h : ∀ x ∈ l, f x = x) : l.map f = l := by
  induction l with
  | nil => rfl
  | cons hd tl ih =>
      simp only [List.map_cons, h hd (by simp)]
      rw [ih (fun x hx => h x (by simp [hx]))]

/-- C1. The review transition mutates exactly the rows of the given uploader
whose `approval_status` is `Approved` (setting `review_status`, `reviewer`
and `review_time` on each); every other row is unchanged; and when no row
matches, the handler leaves the table as it was and still answers success
(an idempotent no-op, not an error). -/
theorem review_frame_effect (docs : List Document)
    (users : List (String × String)) (approverEmail : Option String)
    (u rs rv : String) (t : Nat) (mf : Bool) :
    (reviewHandler docs users approverEmail u rs rv t mf).docs
        = docs.map (reviewUpdateDoc u rs rv t)
    ∧ (∀ d ∈ docs, d.uploaded_by = u → d.approval_status = "Approved" →
        reviewUpdateDoc u rs rv t d
          = { d with review_status := rs, reviewer := some rv, review_time := some t })
    ∧ (∀ d ∈ docs, ¬(d.uploaded_by = u ∧ d.approval_status = "Approved") →
        reviewUpdateDoc u rs rv t d = d)
    ∧ ((∀ d ∈ docs, ¬(d.uploaded_by = u ∧ d.approval_status = "Approved")) →
        (reviewHandler docs users approverEmail u rs rv t false).docs = docs
        ∧ (reviewHandler docs users approverEmail u rs rv t false).outcome
            = .success) := by
  refine ⟨rfl, ?_, ?_, ?_⟩
  · intro d _ h1 h2
    simp [reviewUpdateDoc, h1, h2]
  · intro d _ h
    simp only [reviewUpdateDoc, if_neg h]
  · intro h
    refine ⟨?_, rfl⟩
    simp only [reviewHandler]
    exact map_eq_self_of_fixed docs _ (fun d hd => by
      simp only [reviewUpdateDoc, if_neg (h d hd)])

/-- Sample approved document of uploader alice, review already done. -/
def sampleApproved : Document :=
  { id := 1, document_name := "report.pdf",
    document_link := some "https://drive.google.com/uc?id=abc",
    uploaded_by := "alice", upload_time := 10,
    approval_status := "Approved", approved_by := some "bob",
    approval_time := some 11,
    review_status := "Done", reviewer := some "dora", review_time := some 12 }

/-- Sample still-pending document of uploader alice. -/
def samplePending : Document :=
  { id := 2, document_name := "draft.pdf",
    document_link := some "https://drive.google.com/uc?id=xyz",
    uploaded_by := "alice", upload_time := 20,
    approval_status := "Pending", approved_by := none, approval_time := none,
    review_status := "Pending", reviewer := none, review_time := none }

/-- Witness for C1 at a concrete table: the approved row of alice is
rewritten, the pending row is untouched, and on a table with no approved
row of alice the handler is a successful no-op. -/
theorem review_frame_effect_witness :
    reviewUpdateDoc "alice" "Approved" "carol" 30 sampleApproved
        = { sampleApproved with
            review_status := "Approved", reviewer := some "carol",
            review_time := some 30 }
    ∧ reviewUpdateDoc "alice" "Approved" "carol" 30 samplePending = samplePending
    ∧ (reviewHandler [samplePending] [] none "alice" "Approved" "carol" 30 false).docs
        = [samplePending]
    ∧ (reviewHandler [samplePending] [] none "alice" "Approved" "carol" 30 false).outcome
        = .success := by
  have h := review_frame_effect [sampleApproved, samplePending] [] none
      "alice" "Approved" "carol" 30 false
  have h2 := review_frame_effect [samplePending] [] none
      "alice" "Approved" "carol" 30 false
  refine ⟨h.2.1 sampleApproved (by simp) rfl rfl,
          h.2.2.1 samplePending (by simp) (by decide),
          (h2.2.2.2 (by decide)).1, (h2.2.2.2 (by decide)).2⟩

/-- C10. Review is not once-only: a row whose `approval_status` is
`Approved` is rewritten by the review UPDATE even when its
`review_status` is already non-Pending — the new decision, reviewer and
time overwrite the old ones. -/
theorem review_overwrites_previous_review (d : Document) (u rs rv : String)
    (t : Nat) (h1 : d.uploaded_by = u) (h2 : d.approval_status = "Approved")
    (_h3 : d.review_status ≠ "Pending") :
    (reviewUpdateDoc u rs rv t d).review_status = rs
    ∧ (reviewUpdateDoc u rs rv t d).reviewer = some rv
    ∧ (reviewUpdateDoc u rs rv t d).review_time = some t := by
  simp [reviewUpdateDoc, h1, h2]

/-- Witness for C10: the sample document already reviewed as Done is
overwritten by a new review decision. -/
theorem review_overwrites_previous_review_witness :
    sampleApproved.review_status ≠ "Pending"
    ∧ (reviewUpdateDoc "alice" "Rejected" "carol" 40 sampleApproved).review_status
        = "Rejected"
    ∧ (reviewUpdateDoc "alice" "Rejected" "carol" 40 sampleApproved).reviewer
        = some "carol"
    ∧ (reviewUpdateDoc "alice" "Rejected" "carol" 40 sampleApproved).review_time
        = some 40 :=
  ⟨by decide,
   review_overwrites_previous_review sampleApproved "alice" "Rejected" "carol" 40
     rfl rfl (by decide)⟩

/-- Outcome of the PUT /api/approve/:id handler: 404 when the UPDATE
matched no row, 404 again if the re-SELECT finds nothing, 200 otherwise. -/
inductive ApproveOutcome
  | notFound
  | notFoundAfterUpdate
  | ok
deriving Repr, DecidableEq

/-- Per-row effect of the UPDATE in PUT /api/approve/:id:
`SET approval_status = ?, approved_by = ?, approval_time = ? WHERE id = ?`. -/
def approveUpdateDoc (id : Nat) (approval_status approved_by : String)
    (approval_time : Nat) (d : Document) : Document :=
  if d.id = id then
    { d with approval_status := approval_status, approved_by := some approved_by,
             approval_time := some approval_time }
  else d

/-- `sendApprovalNotification`: builds the mail whose subject and body are
chosen by `recipientRole` ("sender", "reviewer", or absent — the generic
status template). Its own try/catch swallows a sendMail failure. -/
def sendApprovalNotification (toEmails : List (Option String))
    (documentName uploadedBy status : String)
    (recipientRole : Option String) : Notification :=
  if recipientRole = some "sender" then
    { toEmails := toEmails,
      subject := "✅ Your document \"" ++ documentName ++ "\" has been approved",
      html := "\n      <h3>Good news!</h3>\n      <p>Your document <strong>" ++ documentName ++ "</strong> uploaded by <strong>" ++ uploadedBy ++ "</strong> has been approved by the approver.</p>\n      <p>It will now be reviewed by the reviewer.</p>\n    " }
  else if recipientRole = some "reviewer" then
    { toEmails := toEmails,
      subject := "📄 New Document \"" ++ documentName ++ "\" Needs Your Review",
      html := "\n      <h3>Document Ready for Review</h3>\n      <p>A new document <strong>" ++ documentName ++ "</strong> uploaded by <strong>" ++ uploadedBy ++ "</strong> has been approved and is ready for your review.</p>\n      <p>Please log in to the system and take necessary action.</p>\n    " }
  else
    { toEmails := toEmails,
      subject := "📄 Document \"" ++ documentName ++ "\" Status: " ++ status,
      html := "\n      <h3>Document Status Update</h3>\n      <p><strong>" ++ documentName ++ "</strong> uploaded by <strong>" ++ uploadedBy ++ "</strong> is now marked as: <strong>" ++ status ++ "</strong>.</p>\n    " }

/-- Notification fan-out of PUT /api/approve/:id once the updated document
has been re-fetched: two mails (sender + reviewer templates) when the
decision string is exactly "Approved", otherwise the single generic
"Unapproved"-status mail to the sender only. -/
def approveNotifs (users : List (String × String))
    (reviewerEmail : Option String) (approval_status : String)
    (doc : Document) : List Notification :=
  if approval_status = "Approved" then
    [sendApprovalNotification [getUserEmailByUsername users doc.uploaded_by]
       doc.document_name doc.uploaded_by "Approved" (some "sender"),
     sendApprovalNotification [reviewerEmail]
       doc.document_name doc.uploaded_by "Pending Review" (some "reviewer")]
  else
    [sendApprovalNotification [getUserEmailByUsername users doc.uploaded_by]
       doc.document_name doc.uploaded_by "Unapproved" none]

/-- Result of the PUT /api/approve/:id handler. -/
structure ApproveResult where
  docs : List Document
  outcome : ApproveOutcome
  notifications : List Notification
  errorLogged : Bool
deriving Repr, DecidableEq

/-- PUT /api/approve/:id. The UPDATE runs, `affectedRows = 0` answers 404,
otherwise the row is re-SELECTed and the notification fan-out runs; each
mail is sent through `sendApprovalNotification`, whose internal try/catch
logs a sendMail failure without rethrowing, so `mailFails` can only set the
log flag, never the outcome. -/
def approveHandler (docs : List Document) (users : List (String × String))
    (reviewerEmail : Option String) (id : Nat)
    (approval_status approved_by : String) (t : Nat)
    (mailFails : Bool) : ApproveResult :=
  let docs2 := docs.map (approveUpdateDoc id approval_status approved_by t)
  if (docs.filter (fun d => d.id == id)).length = 0 then
    { docs := docs2, outcome := .notFound, notifications := [],
      errorLogged := false }
  else
    match (docs2.filter (fun d => d.id == id)).head? with
    | none =>
        { docs := docs2, outcome := .notFoundAfterUpdate, notifications := [],
          errorLogged := false }
    | some doc =>
        { docs := docs2, outcome := .ok,
          notifications := approveNotifs users reviewerEmail approval_status doc,
          errorLogged := mailFails }

/-- C4. The approve UPDATE writes `approval_status`, `approved_by` and
`approval_time` together on the row with the given id (whatever the row
held before, so re-approval overwrites all three), leaves every other row
alone, and when no row has that id the handler answers 404 Document not
found with the table unchanged and no notification. -/
theorem approve_atomic_or_not_found (docs : List Document)
    (users : List (String × String)) (re : Option String) (id : Nat)
    (st ab : String) (t : Nat) (mf : Bool) :
    (∀ d, d.id = id →
        approveUpdateDoc id st ab t d
          = { d with
              approval_status := st, approved_by := some ab,
              approval_time := some t })
    ∧ (∀ d, d.id ≠ id → approveUpdateDoc id st ab t d = d)
    ∧ (approveHandler docs users re id st ab t mf).docs
        = docs.map (approveUpdateDoc id st ab t)
    ∧ ((∀ d ∈ docs, d.id ≠ id) →
        (approveHandler docs users re id st ab t mf).outcome = .notFound
        ∧ (approveHandler docs users re id st ab t mf).docs = docs
        ∧ (approveHandler docs users re id st ab t mf).notifications = []) := by
  refine ⟨?_, ?_, ?_, ?_⟩
  · intro d h
    simp [approveUpdateDoc, h]
  · intro d h
    simp only [approveUpdateDoc, if_neg h]
  · simp only [approveHandler]
    split
    · rfl
    · split <;> rfl
  · intro h
    have hfix : ∀ d ∈ docs, approveUpdateDoc id st ab t d = d :=
      fun d hd => by simp only [approveUpdateDoc, if_neg (h d hd)]
    have hfil : docs.filter (fun d => d.id == id) = [] := by
      rw [List.filter_eq_nil_iff]
      intro d hd
      simpa using h d hd
    refine ⟨?_, ?_, ?_⟩
    · simp [approveHandler, hfil]
    · simp [approveHandler, hfil, map_eq_self_of_fixed docs _ hfix]
    · simp [approveHandler, hfil]

/-- Witness for C4: re-approving the already-approved sample row rewrites
all three approval columns, and approving a missing id 99 is a 404 that
changes nothing and sends nothing. -/
theorem approve_atomic_or_not_found_witness :
    approveUpdateDoc 1 "Approved" "erin" 50 sampleApproved
        = { sampleApproved with
            approval_status := "Approved", approved_by := some "erin",
            approval_time := some 50 }
    ∧ (approveHandler [sampleApproved] [] none 99 "Approved" "erin" 50 false).outcome
        = .notFound
    ∧ (approveHandler [sampleApproved] [] none 99 "Approved" "erin" 50 false).docs
        = [sampleApproved]
    ∧ (approveHandler [sampleApproved] [] none 99 "Approved" "erin" 50 false).notifications
        = [] := by
  have h := approve_atomic_or_not_found [sampleApproved] [] none 1
      "Approved" "erin" 50 false
  have h99 := approve_atomic_or_not_found [sampleApproved] [] none 99
      "Approved" "erin" 50 false
  have hne := h99.2.2.2 (by decide)
  exact ⟨h.1 sampleApproved rfl, hne.1, hne.2.1, hne.2.2⟩

/-- The sender-template subject and the reviewer-template subject of
`sendApprovalNotification` differ for every document name (their first
characters already differ). -/
theorem senderSubject_ne_reviewerSubject (dn : String) :
    ("✅ Your document \"" ++ dn ++ "\" has been approved")
      ≠ ("📄 New Document \"" ++ dn ++ "\" Needs Your Review") := by
  intro h
  have h2 := congrArg (fun s => s.data.head?) h
  simp only [String.data_append, List.append_assoc, List.head?_append,
    List.head?_cons, Option.or] at h2
  exact absurd h2 (by decide)

/-- C2. On an existing document (the UPDATE matched a row and the re-SELECT
returned it), an Approved decision makes the handler build exactly two
mails — the sender-template one addressed to the uploader and the
reviewer-template one addressed to the reviewer role, with different
subjects — while any other decision builds exactly one mail, addressed to
the uploader only. -/
theorem approve_notification_fanout (docs : List Document)
    (users : List (String × String)) (re : Option String) (id : Nat)
    (st ab : String) (t : Nat) (mf : Bool) (doc : Document)
    (hlen : (docs.filter (fun d => d.id == id)).length ≠ 0)
    (hdoc : ((docs.map (approveUpdateDoc id st ab t)).filter
        (fun d => d.id == id)).head? = some doc) :
    (approveHandler docs users re id st ab t mf).outcome = .ok
    ∧ (st = "Approved" →
        (approveHandler docs users re id st ab t mf).notifications
          = [sendApprovalNotification
               [getUserEmailByUsername users doc.uploaded_by]
               doc.document_name doc.uploaded_by "Approved" (some "sender"),
             sendApprovalNotification [re]
               doc.document_name doc.uploaded_by "Pending Review" (some "reviewer")]
        ∧ (approveHandler docs users re id st ab t mf).notifications.length = 2
        ∧ (sendApprovalNotification [getUserEmailByUsername users doc.uploaded_by]
             doc.document_name doc.uploaded_by "Approved" (some "sender")).subject
            ≠ (sendApprovalNotification [re]
                 doc.document_name doc.uploaded_by "Pending Review"
                 (some "reviewer")).subject)
    ∧ (st ≠ "Approved" →
        (approveHandler docs users re id st ab t mf).notifications
          = [sendApprovalNotification
               [getUserEmailByUsername users doc.uploaded_by]
               doc.document_name doc.uploaded_by "Unapproved" none]
        ∧ (approveHandler docs users re id st ab t mf).notifications.length = 1) := by
  have hh : approveHandler docs users re id st ab t mf
      = { docs := docs.map (approveUpdateDoc id st ab t), outcome := .ok,
          notifications := approveNotifs users re st doc, errorLogged := mf } := by
    simp only [approveHandler, if_neg hlen, hdoc]
  refine ⟨by rw [hh], ?_, ?_⟩
  · intro hst
    rw [hh]
    refine ⟨by simp [approveNotifs, hst], by simp [approveNotifs, hst], ?_⟩
    simp only [sendApprovalNotification, if_pos rfl]
    have : ¬ ((some "reviewer" : Option String) = some "sender") := by decide
    simp only [if_neg this, if_pos rfl]
    exact senderSubject_ne_reviewerSubject doc.document_name
  · intro hst
    rw [hh]
    exact ⟨by simp [approveNotifs, hst], by simp [approveNotifs, hst]⟩

/-- Witness for C2: approving the sample row gives outcome ok and two
mails; an "Unapproved" decision on the same row gives exactly one mail. -/
theorem approve_notification_fanout_witness :
    (approveHandler [sampleApproved] [("alice", "a@x.com")] (some "r@x.com")
        1 "Approved" "bob" 50 false).outcome = .ok
    ∧ (approveHandler [sampleApproved] [("alice", "a@x.com")] (some "r@x.com")
        1 "Approved" "bob" 50 false).notifications.length = 2
    ∧ (approveHandler [sampleApproved] [("alice", "a@x.com")] (some "r@x.com")
        1 "Unapproved" "bob" 50 false).notifications.length = 1 := by
  have h := approve_notification_fanout [sampleApproved] [("alice", "a@x.com")]
      (some "r@x.com") 1 "Approved" "bob" 50 false
      { sampleApproved with
        approval_status := "Approved", approved_by := some "bob",
        approval_time := some 50 }
      (by decide) (by decide)
  have h2 := approve_notification_fanout [sampleApproved] [("alice", "a@x.com")]
      (some "r@x.com") 1 "Unapproved" "bob" 50 false
      { sampleApproved with
        approval_status := "Unapproved", approved_by := some "bob",
        approval_time := some 50 }
      (by decide) (by decide)
  exact ⟨h.1, (h.2.1 rfl).2.1, (h2.2.2 (by decide)).2⟩

/-- C9. The approval transition persists whatever status string the caller
supplies, with no validation against the set Approved/Unapproved: any
string s other than "Approved" is stored as the row's `approval_status`
and the handler takes the single-notification branch. -/
theorem approve_accepts_any_status (docs : List Document)
    (users : List (String × String)) (re : Option String) (id : Nat)
    (s ab : String) (t : Nat) (mf : Bool) (doc : Document)
    (hs : s ≠ "Approved")
    (hlen : (docs.filter (fun d => d.id == id)).length ≠ 0)
    (hdoc : ((docs.map (approveUpdateDoc id s ab t)).filter
        (fun d => d.id == id)).head? = some doc) :
    (∀ d, d.id = id → (approveUpdateDoc id s ab t d).approval_status = s)
    ∧ (approveHandler docs users re id s ab t mf).outcome = .ok
    ∧ (approveHandler docs users re id s ab t mf).notifications
        = [sendApprovalNotification
             [getUserEmailByUsername users doc.uploaded_by]
             doc.document_name doc.uploaded_by "Unapproved" none]
    ∧ (approveHandler docs users re id s ab t mf).notifications.length = 1 := by
  have hh : approveHandler docs users re id s ab t mf
      = { docs := docs.map (approveUpdateDoc id s ab t), outcome := .ok,
          notifications := approveNotifs users re s doc, errorLogged := mf } := by
    simp only [approveHandler, if_neg hlen, hdoc]
  refine ⟨?_, by rw [hh], by rw [hh]; simp [approveNotifs, hs],
          by rw [hh]; simp [approveNotifs, hs]⟩
  intro d h
  simp [approveUpdateDoc, h]

/-- Witness for C9: the unvalidated status string "Banana" is stored on the
sample row and yields the single generic notification. -/
theorem approve_accepts_any_status_witness :
    (approveUpdateDoc 1 "Banana" "bob" 50 sampleApproved).approval_status
        = "Banana"
    ∧ (approveHandler [sampleApproved] [] none 1 "Banana" "bob" 50 false).outcome
        = .ok
    ∧ (approveHandler [sampleApproved] [] none 1 "Banana" "bob" 50
        false).notifications.length = 1 := by
  have h := approve_accepts_any_status [sampleApproved] [] none 1
      "Banana" "bob" 50 false
      { sampleApproved with
        approval_status := "Banana", approved_by := some "bob",
        approval_time := some 50 }
      (by decide) (by decide) (by decide)
  exact ⟨h.1 sampleApproved rfl, h.2.1, h.2.2.2⟩

/-- The basename part of a path: the characters after the last '/'
(Node's `path.basename`, as far as `path.extname` needs it). -/
def afterLastSlash (l : List Char) : List Char :=
  l.foldl (fun acc c => if c = '/' then [] else acc ++ [c]) []

/-- Node's `path.extname`: the suffix of the basename from its last dot,
or the empty string when the basename has no dot or only a leading dot. -/
def extname (s : String) : String :=
  let base := afterLastSlash s.data
  let rev := base.reverse
  match rev.findIdx? (fun c => c = '.') with
  | none => ""
  | some k => if k = base.length - 1 then "" else ⟨'.' :: (rev.take k).reverse⟩

/-- The multer `fileFilter` of the upload route: accept exactly the files
whose original name has extension ".pdf" (case-insensitively). It runs
before multer writes anything to disk and before the route handler runs. -/
def fileFilter (originalname : String) : Bool :=
  (extname originalname).data.map Char.toLower == ['.', 'p', 'd', 'f']

/-- State touched by POST /upload: the `documents` table and the set of
objects written to the Drive folder (by stored object id). -/
structure UploadState where
  docs : List Document
  driveObjects : List String
deriving Repr, DecidableEq

/-- Outcome of the upload pipeline: multer rejects a non-PDF name with the
"Only PDF files are allowed" error before the handler runs; otherwise the
handler stores, inserts and answers success. -/
inductive UploadOutcome
  | rejectedNonPdf
  | success
deriving Repr, DecidableEq

/-- The row INSERTed by POST /upload: name, Drive link, uploader, time,
and the fixed initial statuses Pending/Pending with null review columns. -/
def newDocument (newId : Nat) (originalname uploadedBy driveId : String)
    (t : Nat) : Document :=
  { id := newId, document_name := originalname,
    document_link := some ("https://drive.google.com/uc?id=" ++ driveId),
    uploaded_by := uploadedBy, upload_time := t,
    approval_status := "Pending", approved_by := none, approval_time := none,
    review_status := "Pending", reviewer := none, review_time := none }

/-- Result of the upload pipeline. -/
structure UploadResult where
  state : UploadState
  outcome : UploadOutcome
  errorLogged : Bool
deriving Repr, DecidableEq

/-- POST /upload as a pipeline: multer's `fileFilter` gate, then (in the
happy path modelled here: Drive and DB reachable) the Drive write, the
INSERT of the Pending/Pending row, and `sendEmailNotification`, whose own
try/catch swallows a mail failure, so `mailFails` can only set the log
flag, never the outcome or the stored data. -/
def uploadPipeline (st : UploadState) (newId : Nat)
    (originalname uploadedBy driveId : String) (t : Nat)
    (mailFails : Bool) : UploadResult :=
  if fileFilter originalname then
    { state := { docs := st.docs ++ [newDocument newId originalname uploadedBy driveId t],
                 driveObjects := st.driveObjects ++ [driveId] },
      outcome := .success, errorLogged := mailFails }
  else
    { state := st, outcome := .rejectedNonPdf, errorLogged := false }

/-- C5. A successful PDF upload appends exactly one Document row, and that
row has `approval_status = Pending`, `review_status = Pending` and a
non-null storage link. -/
theorem upload_creates_pending_document (st : UploadState) (newId : Nat)
    (name ub driveId : String) (t : Nat) (mf : Bool)
    (h : fileFilter name = true) :
    (uploadPipeline st newId name ub driveId t mf).outcome = .success
    ∧ (uploadPipeline st newId name ub driveId t mf).state.docs
        = st.docs ++ [newDocument newId name ub driveId t]
    ∧ (newDocument newId name ub driveId t).approval_status = "Pending"
    ∧ (newDocument newId name ub driveId t).review_status = "Pending"
    ∧ (newDocument newId name ub driveId t).document_link
        = some ("https://drive.google.com/uc?id=" ++ driveId) := by
  simp [uploadPipeline, h, newDocument]

/-- Witness for C5: uploading report.pdf appends one Pending/Pending row
with its Drive link. -/
theorem upload_creates_pending_document_witness :
    fileFilter "report.pdf" = true
    ∧ (uploadPipeline ⟨[], []⟩ 7 "report.pdf" "alice" "abc" 10 false).outcome
        = .success
    ∧ (uploadPipeline ⟨[], []⟩ 7 "report.pdf" "alice" "abc" 10 false).state.docs
        = [newDocument 7 "report.pdf" "alice" "abc" 10]
    ∧ (newDocument 7 "report.pdf" "alice" "abc" 10).approval_status = "Pending" := by
  have h := upload_creates_pending_document ⟨[], []⟩ 7 "report.pdf" "alice"
      "abc" 10 false (by decide)
  exact ⟨by decide, h.1, by simpa using h.2.1, h.2.2.1⟩

/-- C6. A file whose name does not pass the PDF filter is rejected before
anything happens: no Drive object is written, no Document row is inserted,
and the outcome is the multer rejection. -/
theorem upload_rejects_non_pdf (st : UploadState) (newId : Nat)
    (name ub driveId : String) (t : Nat) (mf : Bool)
    (h : fileFilter name = false) :
    (uploadPipeline st newId name ub driveId t mf).outcome = .rejectedNonPdf
    ∧ (uploadPipeline st newId name ub driveId t mf).state.docs = st.docs
    ∧ (uploadPipeline st newId name ub driveId t mf).state.driveObjects
        = st.driveObjects := by
  simp [uploadPipeline, h]

/-- Witness for C6: notes.txt is rejected and the state is untouched. -/
theorem upload_rejects_non_pdf_witness :
    fileFilter "notes.txt" = false
    ∧ (uploadPipeline ⟨[sampleApproved], ["abc"]⟩ 7 "notes.txt" "alice" "zzz"
        10 false).outcome = .rejectedNonPdf
    ∧ (uploadPipeline ⟨[sampleApproved], ["abc"]⟩ 7 "notes.txt" "alice" "zzz"
        10 false).state.docs = [sampleApproved]
    ∧ (uploadPipeline ⟨[sampleApproved], ["abc"]⟩ 7 "notes.txt" "alice" "zzz"
        10 false).state.driveObjects = ["abc"] := by
  have h := upload_rejects_non_pdf ⟨[sampleApproved], ["abc"]⟩ 7 "notes.txt"
      "alice" "zzz" 10 false (by decide)
  exact ⟨by decide, h.1, h.2.1, h.2.2⟩

/-- Lookup in the process-wide `otpStore` (email ↦ current code), modelled
as an association list: `otpStore[email]`, `undefined` when absent. -/
def otpLookup (store : List (String × String)) (email : String) :
    Option String :=
  (store.find? (fun p => p.1 == email)).map (fun p => p.2)

/-- `delete otpStore[email]`. -/
def otpErase (store : List (String × String)) (email : String) :
    List (String × String) :=
  store.filter (fun p => !(p.1 == email))

/-- Outcome of POST /verify-otp: `res.json` or 400 Invalid OTP. -/
inductive VerifyOutcome
  | verified
  | invalid
deriving Repr, DecidableEq

/-- POST /verify-otp: compare the entered code with `otpStore[email]`; on a
match delete the entry and answer success, otherwise answer 400 with the
store untouched. The entered field of the JSON body may be absent. -/
def verifyOtp (store : List (String × String)) (email : String)
    (enteredOtp : Option String) : List (String × String) × VerifyOutcome :=
  if enteredOtp = otpLookup store email then (otpErase store email, .verified)
  else (store, .invalid)

/-- After erasing an email from the OTP store, lookup of that email is
`none`. -/
theorem otpLookup_otpErase (store : List (String × String)) (email : String) :
    otpLookup (otpErase store email) email = none := by
  have hf : (otpErase store email).find? (fun p => p.1 == email) = none := by
    rw [List.find?_eq_none]
    intro x hx
    have hm := (List.mem_filter.mp hx).2
    simp only [Bool.not_eq_eq_eq_not, Bool.not_true, beq_eq_false_iff_ne,
      ne_eq] at hm
    simp [hm]
  simp [otpLookup, hf]

/-- C7. OTP verification with an entered code succeeds exactly when a code
is stored for that email and equals it; on success the entry is deleted so
the same code immediately fails a second time; on a mismatch the handler
answers Invalid OTP and the store is unchanged. -/
theorem verify_otp_single_use (store : List (String × String))
    (email c : String) :
    ((verifyOtp store email (some c)).2 = .verified
        ↔ otpLookup store email = some c)
    ∧ (otpLookup store email = some c →
        (verifyOtp store email (some c)).1 = otpErase store email
        ∧ otpLookup (verifyOtp store email (some c)).1 email = none
        ∧ (verifyOtp (verifyOtp store email (some c)).1 email (some c)).2
            = .invalid)
    ∧ ((verifyOtp store email (some c)).2 = .invalid →
        (verifyOtp store email (some c)).1 = store) := by
  refine ⟨⟨?_, ?_⟩, ?_, ?_⟩
  · intro hv
    by_cases h : (some c : Option String) = otpLookup store email
    · exact h.symm
    · simp [verifyOtp, if_neg h] at hv
  · intro h
    simp [verifyOtp, h]
  · intro h
    refine ⟨by simp [verifyOtp, h], ?_, ?_⟩
    · simp [verifyOtp, h, otpLookup_otpErase]
    · simp [verifyOtp, h, otpLookup_otpErase]
  · intro hv
    by_cases h : (some c : Option String) = otpLookup store email
    · simp [verifyOtp, if_pos h] at hv
    · simp [verifyOtp, if_neg h]

/-- Witness for C7 on a concrete store: the right code verifies once and
only once, the wrong code is rejected with the store unchanged. -/
theorem verify_otp_single_use_witness :
    otpLookup [("a@x.com", "123456")] "a@x.com" = some "123456"
    ∧ (verifyOtp [("a@x.com", "123456")] "a@x.com" (some "123456")).2
        = .verified
    ∧ (verifyOtp (verifyOtp [("a@x.com", "123456")] "a@x.com"
        (some "123456")).1 "a@x.com" (some "123456")).2 = .invalid
    ∧ (verifyOtp [("a@x.com", "123456")] "a@x.com" (some "999999")).2
        = .invalid
    ∧ (verifyOtp [("a@x.com", "123456")] "a@x.com" (some "999999")).1
        = [("a@x.com", "123456")] := by
  have h := verify_otp_single_use [("a@x.com", "123456")] "a@x.com" "123456"
  have h2 := verify_otp_single_use [("a@x.com", "123456")] "a@x.com" "999999"
  exact ⟨by decide, h.1.mpr (by decide), (h.2.1 (by decide)).2.2,
         by decide, h2.2.2 (by decide)⟩

/-- Character-list prefix test (the anchored step of a SQL LIKE scan). -/
def listLeads : List Char → List Char → Bool
  | [], _ => true
  | _ :: _, [] => false
  | a :: as, b :: bs => a == b && listLeads as bs

/-- `LIKE '%needle%'` on character lists: some suffix of the haystack
starts with the needle. -/
def likeContains (needle : List Char) : List Char → Bool
  | [] => listLeads needle []
  | c :: rest => listLeads needle (c :: rest) || likeContains needle rest

/-- `listLeads a b` holds exactly when `b` extends `a`. -/
theorem listLeads_iff (a b : List Char) :
    listLeads a b = true ↔ ∃ t, b = a ++ t := by
  induction a generalizing b with
  | nil => simp [listLeads]
  | cons x xs ih =>
      cases b with
      | nil =>
          simp [listLeads]
      | cons y ys =>
          simp only [listLeads, Bool.and_eq_true, beq_iff_eq, ih,
            List.cons_append, List.cons.injEq]
          constructor
          · rintro ⟨hxy, t, ht⟩
            exact ⟨t, hxy.symm, ht⟩
          · rintro ⟨t, hyx, ht⟩
            exact ⟨hyx.symm, t, ht⟩
  
/-- `likeContains n h` holds exactly when `h` splits as `pre ++ n ++ post`:
the SQL LIKE '%n%' substring semantics. -/
theorem likeContains_iff (n h : List Char) :
    likeContains n h = true ↔ ∃ pre post, h = pre ++ n ++ post := by
  induction h with
  | nil =>
      simp only [likeContains, listLeads_iff]
      constructor
      · rintro ⟨t, ht⟩
        exact ⟨[], t, by simpa using ht⟩
      · rintro ⟨pre, post, hp⟩
        have := hp.symm
        simp only [List.append_assoc, List.append_eq_nil] at this
        exact ⟨[], by simp [this.1, this.2.1, this.2.2]⟩
  | cons c rest ih =>
      simp only [likeContains, Bool.or_eq_true, listLeads_iff, ih]
      constructor
      · rintro (⟨t, ht⟩ | ⟨pre, post, hp⟩)
        · exact ⟨[], t, by simpa using ht⟩
        · exact ⟨c :: pre, post, by simp [hp]⟩
      · rintro ⟨pre, post, hp⟩
        cases pre with
        | nil =>
            left
            exact ⟨post, by simpa using hp⟩
        | cons p ps =>
            right
            simp only [List.cons_append, List.cons.injEq] at hp
            exact ⟨ps, post, hp.2⟩

/-- GET /documents (modern): when the `uploadedBy` query parameter is
truthy, SELECT with `WHERE uploaded_by = ?` (exact match), otherwise all
rows; the pair returned is the untouched table and the response rows. -/
def modernDocumentsHandler (docs : List Document) (uploadedBy : Option String) :
    List Document × List Document :=
  match uploadedBy with
  | some u =>
      if u == "" then (docs, docs)
      else (docs, docs.filter (fun d => d.uploaded_by == u))
  | none => (docs, docs)

/-- GET /api/document (legacy): when the `uploaded_by` query parameter is
truthy, SELECT with `WHERE uploaded_by LIKE '%u%'` (substring match),
otherwise all rows. -/
def legacyDocumentHandler (docs : List Document) (uploaded_by : Option String) :
    List Document × List Document :=
  match uploaded_by with
  | some u =>
      if u == "" then (docs, docs)
      else (docs, docs.filter (fun d => likeContains u.data d.uploaded_by.data))
  | none => (docs, docs)

/-- C8. With an uploader key, the modern view returns exactly the rows
whose uploader equals the key, the legacy view returns exactly the rows
whose uploader contains the key as a substring, and neither view changes
the table. -/
theorem documents_views (docs : List Document) (u : String) (hu : u ≠ "") :
    (modernDocumentsHandler docs (some u)).1 = docs
    ∧ (legacyDocumentHandler docs (some u)).1 = docs
    ∧ (∀ d, d ∈ (modernDocumentsHandler docs (some u)).2
        ↔ d ∈ docs ∧ d.uploaded_by = u)
    ∧ (∀ d, d ∈ (legacyDocumentHandler docs (some u)).2
        ↔ d ∈ docs ∧ ∃ pre post, d.uploaded_by.data = pre ++ u.data ++ post) := by
  have hu' : (u == "") = false := by simpa using hu
  refine ⟨?_, ?_, ?_, ?_⟩
  · simp [modernDocumentsHandler, hu']
  · simp [legacyDocumentHandler, hu']
  · intro d
    simp [modernDocumentsHandler, hu', List.mem_filter]
  · intro d
    simp [legacyDocumentHandler, hu', List.mem_filter, likeContains_iff]

/-- Witness for C8: the exact key "alice" finds the sample row in the
modern view; the fragment "lic" finds it in the legacy view. -/
theorem documents_views_witness :
    ("alice" : String) ≠ ""
    ∧ sampleApproved ∈ (modernDocumentsHandler [sampleApproved] (some "alice")).2
    ∧ ("lic" : String) ≠ ""
    ∧ sampleApproved ∈ (legacyDocumentHandler [sampleApproved] (some "lic")).2 := by
  refine ⟨by decide, ?_, by decide, ?_⟩
  · exact ((documents_views [sampleApproved] "alice" (by decide)).2.2.1
      sampleApproved).mpr ⟨by simp, rfl⟩
  · exact ((documents_views [sampleApproved] "lic" (by decide)).2.2.2
      sampleApproved).mpr ⟨by simp, ['a'], ['e'], by decide⟩

/-- Counterexample to C3 as stated: in PUT /api/review the mail is sent
inside the handler's own try block, so when the mail dispatch fails on this
concrete table the caller gets the 500 error response — not success — even
though the review UPDATE has already committed (the post-state equals the
post-state of the run whose mail succeeds, and differs from the pre-state). -/
theorem review_mail_failure_fails_request :
    (reviewHandler [sampleApproved] [] none "alice" "Ok" "carol" 30
        true).outcome = .serverError
    ∧ (reviewHandler [sampleApproved] [] none "alice" "Ok" "carol" 30
        true).docs ≠ [sampleApproved]
    ∧ (reviewHandler [sampleApproved] [] none "alice" "Ok" "carol" 30
        true).docs
      = (reviewHandler [sampleApproved] [] none "alice" "Ok" "carol" 30
        false).docs := by
  refine ⟨rfl, ?_, rfl⟩
  decide

/-- C3 as amended. Upload and approve send their mails through helpers
whose internal try/catch logs a failure and swallows it: a mail failure
changes neither the outcome nor the persisted state of those two
operations, and is logged. Review also never rolls back — the UPDATE
commits regardless of the mail — and the failure is logged, but its
handler then answers 500 instead of success. -/
theorem notification_failure_handling (st : UploadState) (newId : Nat)
    (name ub driveId : String) (t : Nat) (docs : List Document)
    (users : List (String × String)) (re ae : Option String) (id : Nat)
    (s ab u rs rv : String) :
    ((uploadPipeline st newId name ub driveId t true).outcome
        = (uploadPipeline st newId name ub driveId t false).outcome
      ∧ (uploadPipeline st newId name ub driveId t true).state
        = (uploadPipeline st newId name ub driveId t false).state
      ∧ (fileFilter name = true →
          (uploadPipeline st newId name ub driveId t true).errorLogged = true))
    ∧ ((approveHandler docs users re id s ab t true).outcome
        = (approveHandler docs users re id s ab t false).outcome
      ∧ (approveHandler docs users re id s ab t true).docs
        = (approveHandler docs users re id s ab t false).docs
      ∧ (approveHandler docs users re id s ab t true).notifications
        = (approveHandler docs users re id s ab t false).notifications)
    ∧ ((reviewHandler docs users ae u rs rv t true).docs
        = docs.map (reviewUpdateDoc u rs rv t)
      ∧ (reviewHandler docs users ae u rs rv t true).outcome = .serverError
      ∧ (reviewHandler docs users ae u rs rv t true).errorLogged = true) := by
  refine ⟨⟨?_, ?_, ?_⟩, ?_, rfl, rfl, rfl⟩
  · by_cases h : fileFilter name <;> simp [uploadPipeline, h]
  · by_cases h : fileFilter name <;> simp [uploadPipeline, h]
  · intro h
    simp [uploadPipeline, h]
  · simp only [approveHandler]
    by_cases hc : (docs.filter (fun d => d.id == id)).length = 0
    · simp [hc]
    · simp only [if_neg hc]
      cases hh : ((docs.map (approveUpdateDoc id s ab t)).filter
          (fun d => d.id == id)).head? <;> simp [hh]

/-- Witness for the amended C3 at concrete inputs: a failing mail leaves
the upload outcome and state identical to the successful-mail run and is
logged, and the failing-mail review run still writes the review columns. -/
theorem notification_failure_handling_witness :
    (uploadPipeline ⟨[], []⟩ 7 "report.pdf" "alice" "abc" 10 true).outcome
        = (uploadPipeline ⟨[], []⟩ 7 "report.pdf" "alice" "abc" 10 false).outcome
    ∧ fileFilter "report.pdf" = true
    ∧ (uploadPipeline ⟨[], []⟩ 7 "report.pdf" "alice" "abc" 10 true).errorLogged
        = true
    ∧ (reviewHandler [sampleApproved] [] none "alice" "Ok" "carol" 30 true).docs
        = [sampleApproved].map (reviewUpdateDoc "alice" "Ok" "carol" 30) := by
  have h := notification_failure_handling ⟨[], []⟩ 7 "report.pdf" "alice"
      "abc" 10 [sampleApproved] [] none none 1 "Approved" "bob" "alice"
      "Ok" "carol"
  have h30 := notification_failure_handling ⟨[], []⟩ 7 "report.pdf" "alice"
      "abc" 30 [sampleApproved] [] none none 1 "Approved" "bob" "alice"
      "Ok" "carol"
  exact ⟨h.1.1, by decide, h.1.2.2 (by decide), h30.2.2.1⟩
